import Mathlib

/-!
Verification model of the SingleSliceSegmentation Slicer module
(SingleSliceSegmentation.py).  The widget callbacks and the logic class
methods are embedded as explicit state-passing functions.  Scene nodes are
records of the attributes the module reads and writes; host (Slicer/VTK)
primitives the module calls are modelled by their documented behaviour
exactly where the module's control flow depends on them.
-/

namespace SSSeg

/-- Python runtime errors that the embedded callbacks can raise. -/
inductive PyErr where
  | nameError (missing : String)
  | attributeError
  | valueError
deriving DecidableEq

/-! ## Overlay toggle (onOverlayClicked) -/

/-- State touched by onOverlayClicked: the Red slice composite node's
foreground opacity together with the widget member lastForegroundOpacity.
Opacity is modelled as a rational number; the callback performs no
arithmetic on it, only comparison with 0 and assignment, so this is exact. -/
structure OverlayState where
  foregroundOpacity : ℚ
  lastForegroundOpacity : ℚ
deriving DecidableEq

/-- Embedding of SingleSliceSegmentationWidget.onOverlayClicked: if the
current foreground opacity is 0, restore the saved opacity; otherwise save
the current opacity into lastForegroundOpacity and set the opacity to 0. -/
def onOverlayClicked (s : OverlayState) : OverlayState :=
  if s.foregroundOpacity = 0 then
    { s with foregroundOpacity := s.lastForegroundOpacity }
  else
    { foregroundOpacity := 0, lastForegroundOpacity := s.foregroundOpacity }

/-! ## onImageChange and Python name resolution -/

/-- Python values occurring in the embedded fragment of onImageChange. -/
inductive PyVal where
  | pyNone
  | intVal (n : Int)
  | node (id : Nat)
deriving DecidableEq

/-- Lookup of a name in a list of local bindings. -/
def lookupName (locals : List (String × PyVal)) (n : String) : Option PyVal :=
  match locals with
  | [] => Option.none
  | (m, v) :: rest => if m = n then some v else lookupName rest n

/-- Names bound at module level of SingleSliceSegmentation.py: the imports
(including the star import from slicer.ScriptedLoadableModule), the
DEFAULT_INPUT_IMAGE_NAME constant and the four classes the module defines. -/
def moduleGlobals : List String :=
  ["print_function", "os", "vtk", "qt", "ctk", "slicer", "logging", "np",
   "ScriptedLoadableModule", "ScriptedLoadableModuleWidget",
   "ScriptedLoadableModuleLogic", "ScriptedLoadableModuleTest",
   "VTKObservationMixin", "DEFAULT_INPUT_IMAGE_NAME",
   "SingleSliceSegmentation", "SingleSliceSegmentationWidget",
   "SingleSliceSegmentationLogic", "SingleSliceSegmentationTest"]

/-- Python name resolution for onImageChange: local scope first, then the
module globals (builtins hold no name of interest here). -/
def resolveName (locals : List (String × PyVal)) (n : String) : Option PyVal :=
  match lookupName locals n with
  | some v => some v
  | Option.none => if n ∈ moduleGlobals then some (PyVal.node 999) else Option.none

/-- Record of a SetAttribute call performed on a scene node. -/
structure AttrWrite where
  targetId : Nat
  attrName : String
  value : String
deriving DecidableEq

/-- Embedding of SingleSliceSegmentationWidget.onImageChange.  The argument
is the (non-null) browser node, modelled by its id and its selected item
number; GetSelectedItemNumber returns an int, never None.  The body binds
inputImageIndex, tests it against None, and then calls SetAttribute on the
name inputBrowserNode, which is resolved through the local scope and the
module globals. -/
def onImageChange (browserNode : Nat × Int) : Except PyErr (List AttrWrite) :=
  let locals : List (String × PyVal) :=
    [("self", PyVal.node 0),
     ("browserNode", PyVal.node browserNode.1),
     ("inputImageIndex", PyVal.intVal browserNode.2)]
  if lookupName locals "inputImageIndex" ≠ some PyVal.pyNone then
    match resolveName locals "inputBrowserNode" with
    | some (PyVal.node i) =>
        Except.ok [⟨i, "SingleSliceSegmentation_OriginalImageIndex",
                    toString browserNode.2⟩]
    | some _ => Except.error PyErr.attributeError
    | Option.none => Except.error (PyErr.nameError "inputBrowserNode")
  else
    Except.ok []

/-! ## Python int() on strings -/

/-- Decimal digit value of a character, none when it is not a digit. -/
def digitVal (c : Char) : Option Nat :=
  if c = '0' then some 0 else if c = '1' then some 1 else if c = '2' then some 2
  else if c = '3' then some 3 else if c = '4' then some 4 else if c = '5' then some 5
  else if c = '6' then some 6 else if c = '7' then some 7 else if c = '8' then some 8
  else if c = '9' then some 9 else Option.none

/-- Value of a digit string, scanned left to right onto an accumulator. -/
def parseDigitsAux : List Char → Nat → Option Nat
  | [], acc => some acc
  | c :: rest, acc =>
    match digitVal c with
    | Option.none => Option.none
    | some d => parseDigitsAux rest (acc * 10 + d)

/-- Python int() as this module exercises it: an optional leading minus
followed by one or more decimal digits (every index string the module
itself writes has this shape, str() of an int); any other string raises
ValueError, modelled as none. -/
def pyInt (s : String) : Option Int :=
  match s.toList with
  | [] => Option.none
  | '-' :: [] => Option.none
  | '-' :: c :: rest => (parseDigitsAux (c :: rest) 0).map (fun n => -(n : Int))
  | c :: rest => (parseDigitsAux (c :: rest) 0).map (fun n => Int.ofNat n)

/-! ## Selection-change callbacks and role attributes -/

/-- A vtkMRMLSequenceBrowserNode as seen by the selection callbacks: its
identity and the module attributes that onInputBrowserChanged and
onSegmentationBrowserChanged read or write (InputBrowser, OutputBrowser and
InputSkipNumber, each prefixed SingleSliceSegmentation_ in the scene). -/
structure BrowserSceneNode where
  id : Nat
  inputBrowserAttr : Option String
  outputBrowserAttr : Option String
  inputSkipAttr : Option String
deriving DecidableEq

/-- A vtkMRMLSegmentationNode as seen by onSegmentationChanged: its identity
and the SingleSliceSegmentation_Segmentation attribute. -/
structure SegSceneNode where
  id : Nat
  segmentationAttr : Option String
deriving DecidableEq

/-- First loop of onInputBrowserChanged: SetAttribute(INPUT_BROWSER, False)
on every sequence browser node of the scene. -/
def clearInputAttr (browsers : List BrowserSceneNode) : List BrowserSceneNode :=
  browsers.map (fun b => { b with inputBrowserAttr := some "False" })

/-- SetAttribute(INPUT_BROWSER, True) on the selected node (identified by
id) of the scene list. -/
def markInputAttr (cid : Nat) (browsers : List BrowserSceneNode) : List BrowserSceneNode :=
  browsers.map (fun b =>
    if b.id = cid then { b with inputBrowserAttr := some "True" } else b)

/-- SetAttribute(INPUT_SKIP_NUMBER, str(numSkip)) on the selected node. -/
def setSkipAttr (cid : Nat) (spin : Int) (browsers : List BrowserSceneNode) :
    List BrowserSceneNode :=
  browsers.map (fun b =>
    if b.id = cid then { b with inputSkipAttr := some (toString spin) } else b)

/-- Embedding of SingleSliceSegmentationWidget.onInputBrowserChanged.  All
browsers get INPUT_BROWSER set to False; a null selection returns there.
Otherwise the selected browser gets INPUT_BROWSER set to True, and the saved
skip number is either loaded into the spin box (int() raising ValueError on
a malformed attribute) or, when absent, initialised from the spin box.
Returns the scene browsers, the spin box value, and the error if raised. -/
def onInputBrowserChanged (browsers : List BrowserSceneNode) (currentNode : Option Nat)
    (spinValue : Int) : List BrowserSceneNode × Int × Option PyErr :=
  let cleared := clearInputAttr browsers
  match currentNode with
  | Option.none => (cleared, spinValue, Option.none)
  | some cid =>
    let marked := markInputAttr cid cleared
    let savedSkip := (marked.find? (fun b => b.id == cid)).bind (fun b => b.inputSkipAttr)
    match savedSkip with
    | some sk =>
      match pyInt sk with
      | some v => (marked, v, Option.none)
      | Option.none => (marked, spinValue, some PyErr.valueError)
    | Option.none => (setSkipAttr cid spinValue marked, spinValue, Option.none)

/-- Value of a role attribute after a selection callback, as a function of
the selection and a node's id: False everywhere, True on the selected id. -/
def roleVal (cur : Option Nat) (aid : Nat) : Option String :=
  match cur with
  | Option.none => some "False"
  | some cid => if aid = cid then some "True" else some "False"

/-- Embedding of SingleSliceSegmentationWidget.onSegmentationBrowserChanged:
all sequence browsers get OUTPUT_BROWSER set to False, then the selected
node (when non-null) gets it set to True. -/
def onSegmentationBrowserChanged (browsers : List BrowserSceneNode)
    (currentNode : Option Nat) : List BrowserSceneNode :=
  let cleared := browsers.map (fun b => { b with outputBrowserAttr := some "False" })
  match currentNode with
  | Option.none => cleared
  | some cid =>
    cleared.map (fun b =>
      if b.id = cid then { b with outputBrowserAttr := some "True" } else b)

/-- Embedding of SingleSliceSegmentationWidget.onSegmentationChanged: all
segmentation nodes get SEGMENTATION set to False, then the selected node
(when non-null) gets it set to True. -/
def onSegmentationChanged (segs : List SegSceneNode) (currentNode : Option Nat) :
    List SegSceneNode :=
  let cleared := segs.map (fun s => { s with segmentationAttr := some "False" })
  match currentNode with
  | Option.none => cleared
  | some cid =>
    cleared.map (fun s =>
      if s.id = cid then { s with segmentationAttr := some "True" } else s)

/-! ## Sequence browsers and captureSlice -/

/-- The segmentation proxy node as captureSlice sees it: its
ORIGINAL_IMAGE_INDEX attribute and its content (the drawn labelmaps),
abstracted as a payload number. -/
structure Segmentation where
  attr : Option String
  payload : Nat
deriving DecidableEq, Inhabited

/-- An item saved in a sequence node: its index value and the saved copy of
the data node (the node's ORIGINAL_IMAGE_INDEX attribute and its content). -/
structure SeqEntry where
  indexValue : String
  attr : Option String
  payload : Nat
deriving DecidableEq, Inhabited

/-- The two synchronized sequence nodes of the segmentation sequence browser
that captureSlice works with: the sequence whose proxy node is the input
image (only its index values matter here) and the sequence whose proxy node
is the selected segmentation.  A component is none when GetSequenceNode
yields no sequence for that proxy node. -/
structure SegBrowserSeqs where
  imageIndexValues : Option (List String)
  segSeq : Option (List SeqEntry)
deriving DecidableEq

/-- The scan of captureSlice over the saved segmentation data nodes: the
first position whose saved ORIGINAL_IMAGE_INDEX attribute compares equal
(Python ==, absent attributes both reading as None included) to the proxy
segmentation's attribute; the loop breaks at the first hit. -/
def findRecordedIndex (originalIndex : Option String) : List SeqEntry → Option Nat
  | [] => Option.none
  | e :: rest =>
    if e.attr = originalIndex then some 0
    else (findRecordedIndex originalIndex rest).map (fun i => i + 1)

/-- vtkMRMLSequenceNode.SetDataNodeAtValue: the first item whose index value
equals the given value is replaced by a copy of the proxy node; when no item
carries that value a new item is stored (the theorems below only exercise
the replacing case). -/
def setDataNodeAtValue (seg : Segmentation) (v : String) : List SeqEntry → List SeqEntry
  | [] => [⟨v, seg.attr, seg.payload⟩]
  | e :: rest =>
    if e.indexValue = v then ⟨v, seg.attr, seg.payload⟩ :: rest
    else e :: setDataNodeAtValue seg v rest

/-- vtkMRMLSequenceBrowserNode.SaveProxyNodesState: the current state of the
proxy nodes is appended as a new item to every synchronized sequence, under
a fresh index value (modelled here as the current item count). -/
def saveProxyNodesState (seqs : SegBrowserSeqs) (seg : Segmentation) : SegBrowserSeqs :=
  { imageIndexValues := seqs.imageIndexValues.map (fun l => l ++ [toString l.length]),
    segSeq := seqs.segSeq.map
      (fun l => l ++ [⟨toString l.length, seg.attr, seg.payload⟩]) }

/-- Embedding of SingleSliceSegmentationLogic.captureSlice.  The sequences
for the input image proxy and the segmentation proxy are looked up (an error
return leaves everything unchanged when either is missing, including when
the input image argument itself is null); the saved segmentation nodes are
scanned for one whose ORIGINAL_IMAGE_INDEX equals the proxy's (the
int()/except step maps a found position to itself and None to None); on a
hit the segmentation is written via SetDataNodeAtValue at the input image
sequence's index value of that position (GetNthIndexValue, empty string when
out of range), otherwise SaveProxyNodesState appends a new item. -/
def captureSlice (seqs : SegBrowserSeqs) (seg : Segmentation)
    (inputImage : Option Nat) : SegBrowserSeqs × List String :=
  match (match inputImage with
         | Option.none => Option.none
         | some _ => seqs.imageIndexValues) with
  | Option.none => (seqs, ["Sequence not found for input image"])
  | some imgIdxVals =>
    match seqs.segSeq with
    | Option.none => (seqs, ["Sequence not found for segmentation"])
    | some segItems =>
      match findRecordedIndex seg.attr segItems with
      | Option.none => (saveProxyNodesState seqs seg, [])
      | some i =>
        let recordedIndexValue := imgIdxVals.getD i ""
        ({ seqs with
            segSeq := some (setDataNodeAtValue seg recordedIndexValue segItems) },
         [])

/-! ## Capture, skip and convert buttons -/

/-- Host sequence browser SelectNextItem(selectionIncrement): the value the
call returns.  With no items it returns -1 (and leaves the selection alone);
a negative selection becomes 0; otherwise the increment is applied, overflow
wraps the selection to 0 and underflow wraps it to the last item. -/
def selectNextItemVal (selected : Int) (numItems : Nat) (inc : Int) : Int :=
  if numItems = 0 then -1
  else if selected < 0 then 0
  else
    let s := selected + inc
    if s ≥ (numItems : Int) then 0
    else if s < 0 then (numItems : Int) - 1
    else s

/-- The browser selection after SelectNextItem: the returned value, except
that with no items the selection is left unchanged. -/
def selectNextItemSel (selected : Int) (numItems : Nat) (inc : Int) : Int :=
  if numItems = 0 then selected else selectNextItemVal selected numItems inc

/-- The input sequence browser as the capture and skip callbacks see it. -/
structure InputBrowser where
  id : Nat
  selectedItem : Int
  numItems : Nat
deriving DecidableEq

/-- The output (segmentation) sequence browser: its identity, selection,
master item count and the synchronized sequences captureSlice works with. -/
structure OutputBrowser where
  id : Nat
  selectedItem : Int
  numItems : Nat
  seqs : SegBrowserSeqs
deriving DecidableEq

/-- The selector and toolbar state read by onCaptureButton and onSkipButton:
the four node selectors, the sequence toolbar's active browser and the skip
spin box value. -/
structure CaptureState where
  inputBrowser : Option InputBrowser
  inputImage : Option Nat
  outputBrowser : Option OutputBrowser
  segmentation : Option Segmentation
  activeBrowserId : Option Nat
  numSkip : Nat
deriving DecidableEq

/-- Observable events of one onCaptureButton / onSkipButton call: the error
messages logged, whether eraseCurrentSegmentation ran, the (current, new)
item numbers around the browser advance when one happened, and whether the
wraparound message box was shown. -/
structure CaptureEvents where
  errors : List String
  erased : Bool
  advance : Option (Int × Int)
  wrapMsg : Bool
deriving DecidableEq

/-- No observable events. -/
def noEvents : CaptureEvents := ⟨[], false, Option.none, false⟩

/-- Embedding of SingleSliceSegmentationWidget.onCaptureButton.  After the
three null guards, the segmentation's ORIGINAL_IMAGE_INDEX string is read
and forced to None when the toolbar's active browser is the input browser;
an absent, "None" or empty value takes the new-segmentation path (set the
attribute to the input browser's current item number, captureSlice, erase
the canvas - modelled as zeroing the payload -, reset the attribute to
"None" and advance the input browser by the skip number), anything else
takes the overwrite path (captureSlice and advance the output browser by
one); in both paths the wraparound box is shown when the value returned by
SelectNextItem is smaller than the item number read before the advance. -/
def onCaptureButton (s : CaptureState) : CaptureState × CaptureEvents :=
  match s.inputBrowser with
  | Option.none => (s, { noEvents with errors := ["No browser node selected!"] })
  | some ib =>
    match s.segmentation with
    | Option.none => (s, { noEvents with errors := ["No segmentation selected!"] })
    | some seg =>
      match s.outputBrowser with
      | Option.none =>
          (s, { noEvents with
                  errors := ["No segmentation sequence browser selected!"] })
      | some ob =>
        let origStr :=
          if s.activeBrowserId = some ib.id then Option.none else seg.attr
        if origStr = Option.none ∨ origStr = some "None" ∨ origStr = some "" then
          let inputImageIndex := ib.selectedItem
          let seg1 : Segmentation := { seg with attr := some (toString inputImageIndex) }
          let cap := captureSlice ob.seqs seg1 s.inputImage
          let seg2 : Segmentation := { seg1 with payload := 0 }
          let seg3 : Segmentation := { seg2 with attr := some "None" }
          let currentItemNum := ib.selectedItem
          let newItemNum :=
            selectNextItemVal currentItemNum ib.numItems (Int.ofNat s.numSkip)
          ({ s with
              segmentation := some seg3,
              outputBrowser := some { ob with seqs := cap.1 },
              inputBrowser := some
                { ib with selectedItem := selectNextItemSel currentItemNum ib.numItems (Int.ofNat s.numSkip) } },
           { errors := cap.2, erased := true,
             advance := some (currentItemNum, newItemNum),
             wrapMsg := newItemNum < currentItemNum })
        else
          let cap := captureSlice ob.seqs seg s.inputImage
          let currentItemNum := ob.selectedItem
          let newItemNum := selectNextItemVal currentItemNum ob.numItems 1
          ({ s with
              outputBrowser := some
                { ob with seqs := cap.1, selectedItem := selectNextItemSel currentItemNum ob.numItems 1 } },
           { errors := cap.2, erased := false,
             advance := some (currentItemNum, newItemNum),
             wrapMsg := newItemNum < currentItemNum })

/-- Embedding of SingleSliceSegmentationWidget.onSkipButton.  Only the input
browser and the segmentation are null-checked.  The Python comparison
activeBrowserNode == outputBrowserNode holds when both are the same node and
also when both are None; in the latter case the branch then dereferences
None and raises AttributeError.  The output-browser branch advances the
output browser by one; the other branch erases the segmentation canvas and
advances the input browser by the skip number; both show the wraparound box
when the returned item number is smaller than the one read before. -/
def onSkipButton (s : CaptureState) : Except PyErr (CaptureState × CaptureEvents) :=
  match s.inputBrowser with
  | Option.none =>
      Except.ok (s, { noEvents with errors := ["No browser node selected!"] })
  | some ib =>
    match s.segmentation with
    | Option.none =>
        Except.ok (s, { noEvents with errors := ["No segmentation selected!"] })
    | some seg =>
      let isActiveOutput : Bool :=
        match s.activeBrowserId, s.outputBrowser with
        | some aid, some ob => aid == ob.id
        | Option.none, Option.none => true
        | _, _ => false
      if isActiveOutput then
        match s.outputBrowser with
        | Option.none => Except.error PyErr.attributeError
        | some ob =>
          let currentItemNum := ob.selectedItem
          let newItemNum := selectNextItemVal currentItemNum ob.numItems 1
          Except.ok
            ({ s with
                outputBrowser := some { ob with selectedItem := selectNextItemSel currentItemNum ob.numItems 1 } },
             { errors := [], erased := false,
               advance := some (currentItemNum, newItemNum),
               wrapMsg := newItemNum < currentItemNum })
      else
        let seg2 : Segmentation := { seg with payload := 0 }
        let currentItemNum := ib.selectedItem
        let newItemNum :=
          selectNextItemVal currentItemNum ib.numItems (Int.ofNat s.numSkip)
        Except.ok
          ({ s with
              segmentation := some seg2,
              inputBrowser := some
                { ib with selectedItem := selectNextItemSel currentItemNum ib.numItems (Int.ofNat s.numSkip) } },
           { errors := [], erased := true,
             advance := some (currentItemNum, newItemNum),
             wrapMsg := newItemNum < currentItemNum })

/-- Selector state read by onConvertButton: the segmentation sequence
browser (bound to the local name inputBrowserNode in the source), the
segmentation node, the ultrasound volume and the convert value spin box. -/
structure ConvertState where
  segmentationBrowser : Option Nat
  segmentation : Option Nat
  ultrasound : Option Nat
  convertValue : Int
deriving DecidableEq

/-- Result of onConvertButton: logged errors, and the arguments of the
convertSegmentationSequenceToVolumeSequence call when one was made (the
conversion itself is host-side work that no claim here concerns). -/
structure ConvertEvents where
  errors : List String
  convertCall : Option (Nat × Nat × Nat × Int)
deriving DecidableEq

/-- Embedding of SingleSliceSegmentationWidget.onConvertButton: three null
guards (segmentation browser, segmentation, ultrasound volume), then the
conversion call with the spin box value. -/
def onConvertButton (s : ConvertState) : ConvertEvents :=
  match s.segmentationBrowser with
  | Option.none => ⟨["No browser node selected!"], Option.none⟩
  | some br =>
    match s.segmentation with
    | Option.none => ⟨["No segmentation selected!"], Option.none⟩
    | some sg =>
      match s.ultrasound with
      | Option.none => ⟨["No ultrasound volume selected!"], Option.none⟩
      | some us => ⟨[], some (br, sg, us, s.convertValue)⟩

/-! ## PNG export and the export button -/

/-- Zero-padded decimal rendering of the loop counter ("%04d" of Python for
the non-negative loop indices used here). -/
def pad4 (n : Nat) : String :=
  let s := toString n
  if s.length < 4 then String.mk (List.replicate (4 - s.length) '0') ++ s else s

/-- Name of the exported segmentation PNG for loop index i. -/
def segFileName (baseName : String) (i : Nat) : String :=
  baseName ++ "_" ++ pad4 i ++ "_segmentation.png"

/-- Name of the exported ultrasound PNG for loop index i. -/
def usFileName (baseName : String) (i : Nat) : String :=
  baseName ++ "_" ++ pad4 i ++ "_ultrasound.png"

/-- Outcome of one iteration of the exportPngSequence loop: either the two
PNG files were written with the image browser at the given position, or the
iteration was skipped through the except/continue path. -/
inductive PngOutcome where
  | exported (imagePosAt : Int) (segFile usFile : String)
  | skipped
deriving DecidableEq

/-- Record of one iteration of the exportPngSequence loop: the loop index,
the ORIGINAL_IMAGE_INDEX attribute the proxy segmentation showed, the image
browser position before the iteration, whether the missing-attribute warning
was logged, and the outcome. -/
structure PngStep where
  itemIndex : Nat
  attrSeen : Option String
  imagePosBefore : Int
  warned : Bool
  outcome : PngOutcome
deriving DecidableEq

/-- The files written by one loop iteration. -/
def PngStep.files (st : PngStep) : List String :=
  match st.outcome with
  | PngOutcome.exported _ f g => [f, g]
  | PngOutcome.skipped => []

/-- The loop of exportPngSequence.  k counts the remaining iterations of the
Python "for i in range(num_items)", i is the running loop index, segPos the
segmentation browser's selection (the proxy segmentation's attribute reads
through it via the proxy-node updates) and imagePos the image browser's
selection.  An absent attribute logs a warning and exports at the unchanged
image position; a string int() rejects skips the iteration via continue,
which also skips the SelectNextItem call, so the segmentation browser (and
with it the attribute seen) stays put; an int() success repositions the
image browser (SetSelectedItemNumber validates nothing) and exports. -/
def pngSteps (baseName : String) (attrs : List (Option String)) :
    Nat → Nat → Nat → Int → List PngStep
  | 0, _, _, _ => []
  | k + 1, i, segPos, imagePos =>
    let attrSeen := attrs.getD segPos Option.none
    match attrSeen with
    | Option.none =>
      ⟨i, Option.none, imagePos, true,
        PngOutcome.exported imagePos (segFileName baseName i) (usFileName baseName i)⟩ ::
      pngSteps baseName attrs k (i + 1)
        (selectNextItemSel (Int.ofNat segPos) attrs.length 1).toNat imagePos
    | some a =>
      match pyInt a with
      | Option.none =>
        ⟨i, some a, imagePos, false, PngOutcome.skipped⟩ ::
        pngSteps baseName attrs k (i + 1) segPos imagePos
      | some idx =>
        ⟨i, some a, imagePos, false,
          PngOutcome.exported idx (segFileName baseName i) (usFileName baseName i)⟩ ::
        pngSteps baseName attrs k (i + 1)
          (selectNextItemSel (Int.ofNat segPos) attrs.length 1).toNat idx

/-- Result of an exportPngSequence call: the error logged for a missing
folder and the per-iteration records. -/
structure PngResult where
  errors : List String
  steps : List PngStep
deriving DecidableEq

/-- Embedding of SingleSliceSegmentationLogic.exportPngSequence.  A missing
output folder logs an error and returns before anything is written.
Otherwise the item count is the segmentation sequence browser's number of
items (one saved attribute per item), the browser moves to its first item
and the loop body runs once per item. -/
def exportPngSequence (folderExists : Bool) (baseName : String)
    (attrs : List (Option String)) (imagePos0 : Int) : PngResult :=
  if folderExists = false then
    { errors := ["Export folder does not exist"], steps := [] }
  else
    { errors := [], steps := pngSteps baseName attrs attrs.length 0 0 imagePos0 }

/-- All files written by an exportPngSequence call. -/
def PngResult.filesWritten (r : PngResult) : List String :=
  (r.steps.map PngStep.files).flatten

/-- Selector and UI state read by onExportButton. -/
structure ExportSelState where
  segmentationBrowser : Option Nat
  segmentation : Option Nat
  image : Option Nat
  imageBrowser : Option Nat
  exportTransformChecked : Bool
  outputFolder : String
  baseName : String
deriving DecidableEq

/-- Calls made by onExportButton: the logged errors and the arguments of the
three possible logic export calls, each (image, image sequence browser,
segmentation, segmentation browser, folder, base name); the image sequence
browser argument is an Option because the code can pass None along. -/
structure ExportEvents where
  errors : List String
  pngCall : Option (Nat × Option Nat × Nat × Nat × String × String)
  numpyCall : Option (Nat × Option Nat × Nat × Nat × String × String)
  transformCall : Option (Nat × Option Nat × Nat × Nat × String × String)
deriving DecidableEq

/-- Embedding of SingleSliceSegmentationWidget.onExportButton.  Four guard
clauses run in order; the fourth one tests selectedImage again (not the
image sequence browser) although its message names the image sequence
browser, so a null image sequence browser is never caught.  Then the
transform checkbox selects the numpy and transform exports, or the PNG
export. -/
def onExportButton (s : ExportSelState) : ExportEvents :=
  match s.segmentation with
  | Option.none =>
      ⟨["No segmentation selected!"], Option.none, Option.none, Option.none⟩
  | some sg =>
    match s.segmentationBrowser with
    | Option.none =>
        ⟨["No segmentation sequence browser selected!"],
          Option.none, Option.none, Option.none⟩
    | some sb =>
      match s.image with
      | Option.none =>
          ⟨["No image selected!"], Option.none, Option.none, Option.none⟩
      | some im =>
        match s.image with
        | Option.none =>
            ⟨["No image sequence browser selected!"],
              Option.none, Option.none, Option.none⟩
        | some _ =>
          if s.exportTransformChecked then
            ⟨[], Option.none,
              some (im, s.imageBrowser, sg, sb, s.outputFolder, s.baseName),
              some (im, s.imageBrowser, sg, sb, s.outputFolder, s.baseName)⟩
          else
            ⟨[], some (im, s.imageBrowser, sg, sb, s.outputFolder, s.baseName),
              Option.none, Option.none⟩

end SSSeg

/-- C10: applying onOverlayClicked twice restores the foreground opacity:
one call sets the opacity to 0 when it is nonzero, saving the old value in
lastForegroundOpacity, and restores the saved value when the opacity is 0,
so the double application is the identity on the foreground opacity. -/
theorem SSSeg.onOverlayClicked_involutive_on_opacity (s : SSSeg.OverlayState) :
    (s.foregroundOpacity ≠ 0 →
      SSSeg.onOverlayClicked s =
        { foregroundOpacity := 0, lastForegroundOpacity := s.foregroundOpacity }) ∧
    (s.foregroundOpacity = 0 →
      SSSeg.onOverlayClicked s =
        { foregroundOpacity := s.lastForegroundOpacity,
          lastForegroundOpacity := s.lastForegroundOpacity }) ∧
    (SSSeg.onOverlayClicked (SSSeg.onOverlayClicked s)).foregroundOpacity =
      s.foregroundOpacity := by
  unfold SSSeg.onOverlayClicked
  rcases s with ⟨f, l⟩
  by_cases hf : f = 0
  · subst hf
    by_cases hl : l = 0 <;> simp [hl]
  · by_cases hl : l = 0 <;> simp [hf]

/-- Witness for C10 at a concrete state: starting from opacity 1/2, the
double application of onOverlayClicked yields opacity 1/2 again. -/
theorem SSSeg.onOverlayClicked_involutive_on_opacity_witness :
    (SSSeg.onOverlayClicked (SSSeg.onOverlayClicked
      { foregroundOpacity := 1/2, lastForegroundOpacity := 3/10 })).foregroundOpacity
      = 1/2 :=
  (SSSeg.onOverlayClicked_involutive_on_opacity
    { foregroundOpacity := 1/2, lastForegroundOpacity := 3/10 }).2.2

/-- C9: for every (non-null) browser node argument, onImageChange raises a
NameError on the undefined name inputBrowserNode, and therefore performs no
attribute write: the ORIGINAL_IMAGE_INDEX attribute is never recorded. -/
theorem SSSeg.onImageChange_raises_nameError (b : Nat × Int) :
    SSSeg.onImageChange b = Except.error (PyErr.nameError "inputBrowserNode") := by
  rcases b with ⟨i, n⟩
  simp [SSSeg.onImageChange, SSSeg.lookupName, SSSeg.resolveName, SSSeg.moduleGlobals]

/-- Helper: a list whose images under f are pairwise distinct has at most
one element satisfying a predicate that forces a fixed image. -/
theorem SSSeg.length_filter_le_one_of_nodup {α β : Type} [DecidableEq β]
    (l : List α) (f : α → β) (c : β) (p : α → Bool)
    (hn : (l.map f).Nodup) (hp : ∀ a ∈ l, p a = true → f a = c) :
    (l.filter p).length ≤ 1 := by
  induction l with
  | nil => simp
  | cons a t ih =>
    simp only [List.map_cons, List.nodup_cons] at hn
    by_cases hpa : p a = true
    · have hfa : f a = c := hp a (List.mem_cons_self a t) hpa
      have ht : t.filter p = [] := by
        rw [List.eq_nil_iff_forall_not_mem]
        intro x hx
        rw [List.mem_filter] at hx
        have hfx : f x = c := hp x (List.mem_cons_of_mem a hx.1) hx.2
        exact hn.1 (by rw [List.mem_map]; exact ⟨x, hx.1, by rw [hfx, hfa]⟩)
      simp [List.filter_cons, hpa, ht]
    · have hrest := ih hn.2 (fun x hx hpx => hp x (List.mem_cons_of_mem a hx) hpx)
      simpa [List.filter_cons, hpa] using hrest

/-- Helper: every element of onInputBrowserChanged's scene list comes from a
scene browser, with the same id and the INPUT_BROWSER attribute determined
by whether that id is the selected one. -/
theorem SSSeg.mem_onInputBrowserChanged {browsers : List SSSeg.BrowserSceneNode}
    {cur : Option Nat} {spin : Int} {b : SSSeg.BrowserSceneNode}
    (hb : b ∈ (SSSeg.onInputBrowserChanged browsers cur spin).1) :
    ∃ a ∈ browsers, b.id = a.id ∧ b.inputBrowserAttr = SSSeg.roleVal cur a.id := by
  unfold SSSeg.onInputBrowserChanged at hb
  cases cur with
  | none =>
    simp only [SSSeg.clearInputAttr, List.mem_map] at hb
    obtain ⟨a, ha, rfl⟩ := hb
    exact ⟨a, ha, rfl, rfl⟩
  | some cid =>
    simp only at hb
    rcases hsk : ((SSSeg.markInputAttr cid (SSSeg.clearInputAttr browsers)).find?
        (fun b => b.id == cid)).bind (fun b => b.inputSkipAttr) with _ | sk
    · simp only [hsk] at hb
      simp only [SSSeg.setSkipAttr, SSSeg.markInputAttr, SSSeg.clearInputAttr,
        List.mem_map] at hb
      obtain ⟨x, ⟨y, ⟨a, ha, rfl⟩, rfl⟩, rfl⟩ := hb
      refine ⟨a, ha, ?_, ?_⟩ <;>
        by_cases h : a.id = cid <;> simp [h, SSSeg.roleVal]
    · simp only [hsk] at hb
      revert hb
      rcases SSSeg.pyInt sk with _ | v <;>
      · intro hb
        simp only [SSSeg.markInputAttr, SSSeg.clearInputAttr, List.mem_map] at hb
        obtain ⟨y, ⟨a, ha, rfl⟩, rfl⟩ := hb
        refine ⟨a, ha, ?_, ?_⟩ <;>
          by_cases h : a.id = cid <;> simp [h, SSSeg.roleVal]

/-- Helper: same characterisation for onSegmentationBrowserChanged and the
OUTPUT_BROWSER attribute. -/
theorem SSSeg.mem_onSegmentationBrowserChanged {browsers : List SSSeg.BrowserSceneNode}
    {cur : Option Nat} {b : SSSeg.BrowserSceneNode}
    (hb : b ∈ SSSeg.onSegmentationBrowserChanged browsers cur) :
    ∃ a ∈ browsers, b.id = a.id ∧ b.outputBrowserAttr = SSSeg.roleVal cur a.id := by
  unfold SSSeg.onSegmentationBrowserChanged at hb
  cases cur with
  | none =>
    simp only [List.mem_map] at hb
    obtain ⟨a, ha, rfl⟩ := hb
    exact ⟨a, ha, rfl, rfl⟩
  | some cid =>
    simp only [List.mem_map] at hb
    obtain ⟨y, ⟨a, ha, rfl⟩, rfl⟩ := hb
    refine ⟨a, ha, ?_, ?_⟩ <;>
      by_cases h : a.id = cid <;> simp [h, SSSeg.roleVal]

/-- Helper: same characterisation for onSegmentationChanged and the
SEGMENTATION attribute. -/
theorem SSSeg.mem_onSegmentationChanged {segs : List SSSeg.SegSceneNode}
    {cur : Option Nat} {s : SSSeg.SegSceneNode}
    (hs : s ∈ SSSeg.onSegmentationChanged segs cur) :
    ∃ a ∈ segs, s.id = a.id ∧ s.segmentationAttr = SSSeg.roleVal cur a.id := by
  unfold SSSeg.onSegmentationChanged at hs
  cases cur with
  | none =>
    simp only [List.mem_map] at hs
    obtain ⟨a, ha, rfl⟩ := hs
    exact ⟨a, ha, rfl, rfl⟩
  | some cid =>
    simp only [List.mem_map] at hs
    obtain ⟨y, ⟨a, ha, rfl⟩, rfl⟩ := hs
    refine ⟨a, ha, ?_, ?_⟩ <;>
      by_cases h : a.id = cid <;> simp [h, SSSeg.roleVal]

/-- Helper: the scene list returned by onInputBrowserChanged carries the
same node ids as the input scene list. -/
theorem SSSeg.onInputBrowserChanged_map_id (browsers : List SSSeg.BrowserSceneNode)
    (cur : Option Nat) (spin : Int) :
    ((SSSeg.onInputBrowserChanged browsers cur spin).1).map (fun b => b.id) =
      browsers.map (fun b => b.id) := by
  have hclear : ∀ l : List SSSeg.BrowserSceneNode,
      (SSSeg.clearInputAttr l).map (fun b => b.id) = l.map (fun b => b.id) := by
    intro l
    unfold SSSeg.clearInputAttr
    rw [List.map_map]
    rfl
  have hmark : ∀ (cid : Nat) (l : List SSSeg.BrowserSceneNode),
      (SSSeg.markInputAttr cid l).map (fun b => b.id) = l.map (fun b => b.id) := by
    intro cid l
    unfold SSSeg.markInputAttr
    rw [List.map_map]
    refine List.map_congr_left (fun a _ => ?_)
    by_cases h : a.id = cid <;> simp [h]
  have hskip : ∀ (cid : Nat) (sp : Int) (l : List SSSeg.BrowserSceneNode),
      (SSSeg.setSkipAttr cid sp l).map (fun b => b.id) = l.map (fun b => b.id) := by
    intro cid sp l
    unfold SSSeg.setSkipAttr
    rw [List.map_map]
    refine List.map_congr_left (fun a _ => ?_)
    by_cases h : a.id = cid <;> simp [h]
  unfold SSSeg.onInputBrowserChanged
  cases cur with
  | none => exact hclear browsers
  | some cid =>
    simp only
    rcases hsk : ((SSSeg.markInputAttr cid (SSSeg.clearInputAttr browsers)).find?
        (fun b => b.id == cid)).bind (fun b => b.inputSkipAttr) with _ | sk
    · simp only [hsk]
      rw [hskip, hmark, hclear]
    · simp only [hsk]
      rcases SSSeg.pyInt sk with _ | v <;> simp only <;> rw [hmark, hclear]

/-- Helper: onSegmentationBrowserChanged preserves the node id list. -/
theorem SSSeg.onSegmentationBrowserChanged_map_id
    (browsers : List SSSeg.BrowserSceneNode) (cur : Option Nat) :
    (SSSeg.onSegmentationBrowserChanged browsers cur).map (fun b => b.id) =
      browsers.map (fun b => b.id) := by
  unfold SSSeg.onSegmentationBrowserChanged
  cases cur with
  | none =>
    simp only [List.map_map]
    rfl
  | some cid =>
    simp only [List.map_map]
    refine List.map_congr_left (fun a _ => ?_)
    by_cases h : a.id = cid <;> simp [h]

/-- Helper: onSegmentationChanged preserves the node id list. -/
theorem SSSeg.onSegmentationChanged_map_id
    (segs : List SSSeg.SegSceneNode) (cur : Option Nat) :
    (SSSeg.onSegmentationChanged segs cur).map (fun s => s.id) =
      segs.map (fun s => s.id) := by
  unfold SSSeg.onSegmentationChanged
  cases cur with
  | none =>
    simp only [List.map_map]
    rfl
  | some cid =>
    simp only [List.map_map]
    refine List.map_congr_left (fun a _ => ?_)
    by_cases h : a.id = cid <;> simp [h]

/-- Helper: the role value equals the string True exactly on the selected id. -/
theorem SSSeg.roleVal_eq_true_iff (cur : Option Nat) (aid : Nat) :
    SSSeg.roleVal cur aid = some "True" ↔ cur = some aid := by
  cases cur with
  | none => simp [SSSeg.roleVal]
  | some cid => by_cases h : aid = cid <;> simp [SSSeg.roleVal, h, eq_comm]

/-- C8: after any call to onInputBrowserChanged, onSegmentationBrowserChanged
or onSegmentationChanged, at most one node of the corresponding class carries
the value "True" for its role attribute (INPUT_BROWSER, OUTPUT_BROWSER or
SEGMENTATION respectively): a node is marked "True" exactly when it is the
newly selected one (its id is the selected id), so no node at all is marked
when the selection is null. -/
theorem SSSeg.selection_callbacks_unique_role_attribute
    (browsers : List SSSeg.BrowserSceneNode) (segs : List SSSeg.SegSceneNode)
    (curIn curOut curSeg : Option Nat) (spin : Int)
    (hb : (browsers.map (fun b => b.id)).Nodup)
    (hs : (segs.map (fun s => s.id)).Nodup) :
    (∀ b ∈ (SSSeg.onInputBrowserChanged browsers curIn spin).1,
        b.inputBrowserAttr = some "True" ↔ curIn = some b.id) ∧
    ((SSSeg.onInputBrowserChanged browsers curIn spin).1.filter
        (fun b => b.inputBrowserAttr == some "True")).length ≤ 1 ∧
    (∀ b ∈ SSSeg.onSegmentationBrowserChanged browsers curOut,
        b.outputBrowserAttr = some "True" ↔ curOut = some b.id) ∧
    ((SSSeg.onSegmentationBrowserChanged browsers curOut).filter
        (fun b => b.outputBrowserAttr == some "True")).length ≤ 1 ∧
    (∀ s ∈ SSSeg.onSegmentationChanged segs curSeg,
        s.segmentationAttr = some "True" ↔ curSeg = some s.id) ∧
    ((SSSeg.onSegmentationChanged segs curSeg).filter
        (fun s => s.segmentationAttr == some "True")).length ≤ 1 := by
  have hiffIn : ∀ b ∈ (SSSeg.onInputBrowserChanged browsers curIn spin).1,
      b.inputBrowserAttr = some "True" ↔ curIn = some b.id := by
    intro b hb'
    obtain ⟨a, _, hid, hattr⟩ := SSSeg.mem_onInputBrowserChanged hb'
    rw [hattr, hid, SSSeg.roleVal_eq_true_iff]
  have hiffOut : ∀ b ∈ SSSeg.onSegmentationBrowserChanged browsers curOut,
      b.outputBrowserAttr = some "True" ↔ curOut = some b.id := by
    intro b hb'
    obtain ⟨a, _, hid, hattr⟩ := SSSeg.mem_onSegmentationBrowserChanged hb'
    rw [hattr, hid, SSSeg.roleVal_eq_true_iff]
  have hiffSeg : ∀ s ∈ SSSeg.onSegmentationChanged segs curSeg,
      s.segmentationAttr = some "True" ↔ curSeg = some s.id := by
    intro s hs'
    obtain ⟨a, _, hid, hattr⟩ := SSSeg.mem_onSegmentationChanged hs'
    rw [hattr, hid, SSSeg.roleVal_eq_true_iff]
  refine ⟨hiffIn, ?_, hiffOut, ?_, hiffSeg, ?_⟩
  · refine SSSeg.length_filter_le_one_of_nodup _ (fun b => b.id) (curIn.getD 0) _ ?_ ?_
    · rw [SSSeg.onInputBrowserChanged_map_id]
      exact hb
    · intro a ha hpa
      have h1 : a.inputBrowserAttr = some "True" := by simpa using hpa
      have h2 := (hiffIn a ha).mp h1
      rw [h2]
      rfl
  · refine SSSeg.length_filter_le_one_of_nodup _ (fun b => b.id) (curOut.getD 0) _ ?_ ?_
    · rw [SSSeg.onSegmentationBrowserChanged_map_id]
      exact hb
    · intro a ha hpa
      have h1 : a.outputBrowserAttr = some "True" := by simpa using hpa
      have h2 := (hiffOut a ha).mp h1
      rw [h2]
      rfl
  · refine SSSeg.length_filter_le_one_of_nodup _ (fun s => s.id) (curSeg.getD 0) _ ?_ ?_
    · rw [SSSeg.onSegmentationChanged_map_id]
      exact hs
    · intro a ha hpa
      have h1 : a.segmentationAttr = some "True" := by simpa using hpa
      have h2 := (hiffSeg a ha).mp h1
      rw [h2]
      rfl

/-- Witness for C8 at a concrete scene: two browsers (one previously marked
True on both role attributes), one segmentation node; selecting browser 1 as
input, a null output browser and the segmentation node leaves at most one
True per role attribute. -/
theorem SSSeg.selection_callbacks_unique_role_attribute_witness :
    ((SSSeg.onInputBrowserChanged
        [⟨1, Option.none, Option.none, Option.none⟩,
         ⟨2, some "True", some "True", Option.none⟩] (some 1) 4).1.filter
      (fun b => b.inputBrowserAttr == some "True")).length ≤ 1 ∧
    ((SSSeg.onSegmentationBrowserChanged
        [⟨1, Option.none, Option.none, Option.none⟩,
         ⟨2, some "True", some "True", Option.none⟩] Option.none).filter
      (fun b => b.outputBrowserAttr == some "True")).length ≤ 1 ∧
    ((SSSeg.onSegmentationChanged [⟨5, some "False"⟩] (some 5)).filter
      (fun s => s.segmentationAttr == some "True")).length ≤ 1 := by
  have h := SSSeg.selection_callbacks_unique_role_attribute
    [⟨1, Option.none, Option.none, Option.none⟩,
     ⟨2, some "True", some "True", Option.none⟩]
    [⟨5, some "False"⟩] (some 1) Option.none (some 5) 4
    (by decide) (by decide)
  exact ⟨h.2.1, h.2.2.2.1, h.2.2.2.2.2⟩

/-- Helper: when no saved node matches, the captureSlice scan yields None. -/
theorem SSSeg.findRecordedIndex_eq_none {a : Option String} {l : List SSSeg.SeqEntry}
    (h : ∀ e ∈ l, e.attr ≠ a) : SSSeg.findRecordedIndex a l = Option.none := by
  induction l with
  | nil => rfl
  | cons e rest ih =>
    have he : e.attr ≠ a := h e (List.mem_cons_self e rest)
    simp [SSSeg.findRecordedIndex, he,
      ih (fun x hx => h x (List.mem_cons_of_mem e hx))]

/-- Helper: when some saved node matches, the captureSlice scan finds one. -/
theorem SSSeg.findRecordedIndex_isSome {a : Option String} {l : List SSSeg.SeqEntry}
    (h : ∃ e ∈ l, e.attr = a) : ∃ i, SSSeg.findRecordedIndex a l = some i := by
  induction l with
  | nil => simp at h
  | cons e rest ih =>
    by_cases he : e.attr = a
    · exact ⟨0, by simp [SSSeg.findRecordedIndex, he]⟩
    · obtain ⟨x, hx, hxa⟩ := h
      rcases List.mem_cons.mp hx with rfl | hx'
      · exact absurd hxa he
      · obtain ⟨i, hi⟩ := ih ⟨x, hx', hxa⟩
        exact ⟨i + 1, by simp [SSSeg.findRecordedIndex, he, hi]⟩

/-- Helper: the position found by the captureSlice scan is in range, matches
the proxy attribute, and is the earliest matching position. -/
theorem SSSeg.findRecordedIndex_spec {a : Option String} {l : List SSSeg.SeqEntry}
    {i : Nat} (h : SSSeg.findRecordedIndex a l = some i) :
    i < l.length ∧ (l.getD i default).attr = a ∧
      ∀ j < i, (l.getD j default).attr ≠ a := by
  induction l generalizing i with
  | nil => simp [SSSeg.findRecordedIndex] at h
  | cons e rest ih =>
    by_cases he : e.attr = a
    · simp only [SSSeg.findRecordedIndex, if_pos he, Option.some.injEq] at h
      subst h
      exact ⟨Nat.succ_pos _, by simpa using he, fun j hj => absurd hj (Nat.not_lt_zero j)⟩
    · simp only [SSSeg.findRecordedIndex, if_neg he] at h
      rcases hfr : SSSeg.findRecordedIndex a rest with _ | i'
      · rw [hfr] at h
        simp at h
      · rw [hfr] at h
        simp only [Option.map_some', Option.some.injEq] at h
        subst h
        obtain ⟨h1, h2, h3⟩ := ih hfr
        refine ⟨Nat.succ_lt_succ h1, by simpa using h2, ?_⟩
        intro j hj
        cases j with
        | zero => simpa using he
        | succ j' =>
          have hx := h3 j' (Nat.lt_of_succ_lt_succ hj)
          simpa using hx

/-- Helper: under distinct index values, SetDataNodeAtValue at the index
value of position i replaces exactly the item at position i. -/
theorem SSSeg.setDataNodeAtValue_eq_set {seg : SSSeg.Segmentation}
    {l : List SSSeg.SeqEntry} {i : Nat}
    (hnodup : (l.map (fun e => e.indexValue)).Nodup)
    (hi : i < l.length) :
    SSSeg.setDataNodeAtValue seg ((l.getD i default).indexValue) l =
      l.set i ⟨(l.getD i default).indexValue, seg.attr, seg.payload⟩ := by
  induction l generalizing i with
  | nil => simp at hi
  | cons e rest ih =>
    simp only [List.map_cons, List.nodup_cons] at hnodup
    cases i with
    | zero => simp [SSSeg.setDataNodeAtValue]
    | succ j =>
      have hj : j < rest.length := Nat.lt_of_succ_lt_succ hi
      have hmem : rest.getD j default ∈ rest := by
        rw [List.getD_eq_getElem rest default hj]
        exact List.getElem_mem hj
      have hne : e.indexValue ≠ (rest.getD j default).indexValue := by
        intro hcontra
        exact hnodup.1 (by rw [List.mem_map]; exact ⟨_, hmem, hcontra.symm⟩)
      simp only [List.getD_cons_succ]
      simp only [SSSeg.setDataNodeAtValue, if_neg hne]
      rw [List.set_cons_succ, ih hnodup.2 hj]

/-- Helper: full characterisation of captureSlice under synchronized,
duplicate-free index values: a matching saved attribute leads to an in-place
replacement at the earliest matching position, no match to an append. -/
theorem SSSeg.captureSlice_spec
    (seqs : SSSeg.SegBrowserSeqs) (seg : SSSeg.Segmentation) (img : Nat)
    (imgIdxVals : List String) (segItems : List SSSeg.SeqEntry)
    (himg : seqs.imageIndexValues = some imgIdxVals)
    (hseg : seqs.segSeq = some segItems)
    (hsync : segItems.map (fun e => e.indexValue) = imgIdxVals)
    (hnodup : (segItems.map (fun e => e.indexValue)).Nodup) :
    ((∃ e ∈ segItems, e.attr = seg.attr) →
      ∃ i, i < segItems.length ∧
        (segItems.getD i default).attr = seg.attr ∧
        (∀ j < i, (segItems.getD j default).attr ≠ seg.attr) ∧
        (SSSeg.captureSlice seqs seg (some img)).1.segSeq =
          some (segItems.set i
            ⟨(segItems.getD i default).indexValue, seg.attr, seg.payload⟩) ∧
        (((SSSeg.captureSlice seqs seg (some img)).1.segSeq.getD []).length =
          segItems.length)) ∧
    ((∀ e ∈ segItems, e.attr ≠ seg.attr) →
      (SSSeg.captureSlice seqs seg (some img)).1.segSeq =
        some (segItems ++ [⟨toString segItems.length, seg.attr, seg.payload⟩]) ∧
      (SSSeg.captureSlice seqs seg (some img)).1.imageIndexValues =
        some (imgIdxVals ++ [toString imgIdxVals.length])) := by
  constructor
  · intro hex
    obtain ⟨i, hfi⟩ := SSSeg.findRecordedIndex_isSome hex
    obtain ⟨hlt, hattr, hmin⟩ := SSSeg.findRecordedIndex_spec hfi
    refine ⟨i, hlt, hattr, hmin, ?_, ?_⟩
    · have hval : imgIdxVals.getD i "" = (segItems.getD i default).indexValue := by
        rw [← hsync]
        rw [List.getD_eq_getElem segItems default hlt]
        rw [List.getD_eq_getElem _ "" (by simpa using hlt)]
        simp
      simp only [SSSeg.captureSlice, himg, hseg, hfi]
      rw [hval, SSSeg.setDataNodeAtValue_eq_set hnodup hlt]
    · have hval : imgIdxVals.getD i "" = (segItems.getD i default).indexValue := by
        rw [← hsync]
        rw [List.getD_eq_getElem segItems default hlt]
        rw [List.getD_eq_getElem _ "" (by simpa using hlt)]
        simp
      simp only [SSSeg.captureSlice, himg, hseg, hfi]
      rw [hval, SSSeg.setDataNodeAtValue_eq_set hnodup hlt]
      simp
  · intro hnone
    have hfr := SSSeg.findRecordedIndex_eq_none hnone
    simp only [SSSeg.captureSlice, himg, hseg, hfr, SSSeg.saveProxyNodesState]
    simp

/-- C1: for every call to captureSlice in which the browser yields sequence
nodes for both the input image and the segmentation (index values of the two
synchronized sequences agreeing and being distinct): if some saved data node
in the segmentation sequence has an ORIGINAL_IMAGE_INDEX attribute equal to
the current segmentation's, the earliest such entry is replaced - the
segmentation is written at that entry's index value and the item count is
unchanged - and otherwise a new entry is appended to both sequences by
saving the proxy nodes' state. -/
theorem SSSeg.captureSlice_replace_or_append
    (seqs : SSSeg.SegBrowserSeqs) (seg : SSSeg.Segmentation) (img : Nat)
    (imgIdxVals : List String) (segItems : List SSSeg.SeqEntry)
    (himg : seqs.imageIndexValues = some imgIdxVals)
    (hseg : seqs.segSeq = some segItems)
    (hsync : segItems.map (fun e => e.indexValue) = imgIdxVals)
    (hnodup : (segItems.map (fun e => e.indexValue)).Nodup) :
    ((∃ e ∈ segItems, e.attr = seg.attr) →
      ∃ i, i < segItems.length ∧
        (segItems.getD i default).attr = seg.attr ∧
        (∀ j < i, (segItems.getD j default).attr ≠ seg.attr) ∧
        (SSSeg.captureSlice seqs seg (some img)).1.segSeq =
          some (segItems.set i
            ⟨(segItems.getD i default).indexValue, seg.attr, seg.payload⟩) ∧
        (((SSSeg.captureSlice seqs seg (some img)).1.segSeq.getD []).length =
          segItems.length)) ∧
    ((∀ e ∈ segItems, e.attr ≠ seg.attr) →
      (SSSeg.captureSlice seqs seg (some img)).1.segSeq =
        some (segItems ++ [⟨toString segItems.length, seg.attr, seg.payload⟩]) ∧
      (SSSeg.captureSlice seqs seg (some img)).1.imageIndexValues =
        some (imgIdxVals ++ [toString imgIdxVals.length])) :=
  SSSeg.captureSlice_spec seqs seg img imgIdxVals segItems himg hseg hsync hnodup

/-- Witness for C1: with one saved segmentation for index value "0" carrying
attribute "3", capturing a segmentation whose attribute is "3" replaces that
entry (content 9 overwrites content 7) instead of appending. -/
theorem SSSeg.captureSlice_replace_or_append_witness :
    (SSSeg.captureSlice ⟨some ["0"], some [⟨"0", some "3", 7⟩]⟩
        ⟨some "3", 9⟩ (some 0)).1.segSeq = some [⟨"0", some "3", 9⟩] := by
  have h := (SSSeg.captureSlice_replace_or_append
    ⟨some ["0"], some [⟨"0", some "3", 7⟩]⟩ ⟨some "3", 9⟩ 0
    ["0"] [⟨"0", some "3", 7⟩] rfl rfl (by decide) (by decide)).1
    ⟨⟨"0", some "3", 7⟩, by decide, rfl⟩
  obtain ⟨i, hi, _, _, heq, _⟩ := h
  have hz : i = 0 := Nat.lt_one_iff.mp hi
  subst hz
  simpa using heq

/-- Helper: the events of onCaptureButton either record no advance and no
message, or an advance with the message shown exactly when the returned item
number is strictly below the one read before. -/
theorem SSSeg.onCaptureButton_events_shape (s : SSSeg.CaptureState) :
    ((SSSeg.onCaptureButton s).2.advance = Option.none ∧
      (SSSeg.onCaptureButton s).2.wrapMsg = false) ∨
    (∃ c n, (SSSeg.onCaptureButton s).2.advance = some (c, n) ∧
      (SSSeg.onCaptureButton s).2.wrapMsg = decide (n < c)) := by
  rcases hin : s.inputBrowser with _ | ib
  · left
    simp [SSSeg.onCaptureButton, hin, SSSeg.noEvents]
  rcases hseg : s.segmentation with _ | seg
  · left
    simp [SSSeg.onCaptureButton, hin, hseg, SSSeg.noEvents]
  rcases hout : s.outputBrowser with _ | ob
  · left
    simp [SSSeg.onCaptureButton, hin, hseg, hout, SSSeg.noEvents]
  right
  simp only [SSSeg.onCaptureButton, hin, hseg, hout]
  by_cases hc : (if s.activeBrowserId = some ib.id then Option.none else seg.attr) =
      Option.none ∨
      (if s.activeBrowserId = some ib.id then Option.none else seg.attr) = some "None" ∨
      (if s.activeBrowserId = some ib.id then Option.none else seg.attr) = some ""
  · rw [if_pos hc]
    exact ⟨ib.selectedItem, _, rfl, rfl⟩
  · rw [if_neg hc]
    exact ⟨ob.selectedItem, _, rfl, rfl⟩

/-- Helper: the same shape for each successful onSkipButton call. -/
theorem SSSeg.onSkipButton_events_shape (s s2 : SSSeg.CaptureState)
    (ev : SSSeg.CaptureEvents) (h : SSSeg.onSkipButton s = Except.ok (s2, ev)) :
    (ev.advance = Option.none ∧ ev.wrapMsg = false) ∨
    (∃ c n, ev.advance = some (c, n) ∧ ev.wrapMsg = decide (n < c)) := by
  unfold SSSeg.onSkipButton at h
  rcases hin : s.inputBrowser with _ | ib
  · rw [hin] at h
    simp only [Except.ok.injEq, Prod.mk.injEq] at h
    obtain ⟨-, rfl⟩ := h
    left
    exact ⟨rfl, rfl⟩
  rw [hin] at h
  rcases hseg : s.segmentation with _ | seg
  · rw [hseg] at h
    simp only [Except.ok.injEq, Prod.mk.injEq] at h
    obtain ⟨-, rfl⟩ := h
    left
    exact ⟨rfl, rfl⟩
  rw [hseg] at h
  rcases hact : s.activeBrowserId with _ | aid <;>
    rcases hout : s.outputBrowser with _ | ob <;>
      rw [hact, hout] at h
  · simp at h
  · simp only [if_neg (by decide : ¬ (false = true))] at h
    simp only [Except.ok.injEq, Prod.mk.injEq] at h
    obtain ⟨-, rfl⟩ := h
    right
    exact ⟨ib.selectedItem, _, rfl, rfl⟩
  · simp only [if_neg (by decide : ¬ (false = true))] at h
    simp only [Except.ok.injEq, Prod.mk.injEq] at h
    obtain ⟨-, rfl⟩ := h
    right
    exact ⟨ib.selectedItem, _, rfl, rfl⟩
  · rcases hbeq : (aid == ob.id) with _ | _
    · simp only [hbeq, if_neg (by decide : ¬ (false = true))] at h
      simp only [Except.ok.injEq, Prod.mk.injEq] at h
      obtain ⟨-, rfl⟩ := h
      right
      exact ⟨ib.selectedItem, _, rfl, rfl⟩
    · simp only [hbeq, if_true] at h
      simp only [Except.ok.injEq, Prod.mk.injEq] at h
      obtain ⟨-, rfl⟩ := h
      right
      exact ⟨ob.selectedItem, _, rfl, rfl⟩

/-- C3: in onCaptureButton and onSkipButton, after the relevant sequence
browser is advanced, the wraparound message box is shown if and only if the
newly selected item number (the value returned by SelectNextItem) is
strictly smaller than the item number selected before advancing; when no
advance took place no message is shown. -/
theorem SSSeg.wrap_message_iff_new_lt_current (s t : SSSeg.CaptureState) :
    ((∀ c n, (SSSeg.onCaptureButton s).2.advance = some (c, n) →
        ((SSSeg.onCaptureButton s).2.wrapMsg = true ↔ n < c)) ∧
      ((SSSeg.onCaptureButton s).2.advance = Option.none →
        (SSSeg.onCaptureButton s).2.wrapMsg = false)) ∧
    (∀ t2 ev, SSSeg.onSkipButton t = Except.ok (t2, ev) →
      (∀ c n, ev.advance = some (c, n) → (ev.wrapMsg = true ↔ n < c)) ∧
      (ev.advance = Option.none → ev.wrapMsg = false)) := by
  constructor
  · rcases SSSeg.onCaptureButton_events_shape s with ⟨h1, h2⟩ | ⟨c, n, h1, h2⟩
    · refine ⟨fun c n hcn => ?_, fun _ => h2⟩
      rw [h1] at hcn
      exact absurd hcn (by simp)
    · refine ⟨fun c2 n2 hcn => ?_, fun hnone => ?_⟩
      · rw [h1] at hcn
        simp only [Option.some.injEq, Prod.mk.injEq] at hcn
        obtain ⟨rfl, rfl⟩ := hcn
        rw [h2, decide_eq_true_eq]
      · rw [h1] at hnone
        exact absurd hnone (by simp)
  · intro t2 ev h
    rcases SSSeg.onSkipButton_events_shape t t2 ev h with ⟨h1, h2⟩ | ⟨c, n, h1, h2⟩
    · refine ⟨fun c n hcn => ?_, fun _ => h2⟩
      rw [h1] at hcn
      exact absurd hcn (by simp)
    · refine ⟨fun c2 n2 hcn => ?_, fun hnone => ?_⟩
      · rw [h1] at hcn
        simp only [Option.some.injEq, Prod.mk.injEq] at hcn
        obtain ⟨rfl, rfl⟩ := hcn
        rw [h2, decide_eq_true_eq]
      · rw [h1] at hnone
        exact absurd hnone (by simp)

/-- Witness for C3: capturing at item 9 of a 10-item input sequence with
skip 4 wraps the returned selection to 0, and the message box is shown. -/
theorem SSSeg.wrap_message_iff_new_lt_current_witness :
    (SSSeg.onCaptureButton ⟨some ⟨1, 9, 10⟩, some 0,
        some ⟨2, 0, 1, ⟨some [], some []⟩⟩, some ⟨Option.none, 5⟩,
        Option.none, 4⟩).2.wrapMsg = true := by
  have h := (SSSeg.wrap_message_iff_new_lt_current
    ⟨some ⟨1, 9, 10⟩, some 0, some ⟨2, 0, 1, ⟨some [], some []⟩⟩,
      some ⟨Option.none, 5⟩, Option.none, 4⟩
    ⟨some ⟨1, 9, 10⟩, some 0, some ⟨2, 0, 1, ⟨some [], some []⟩⟩,
      some ⟨Option.none, 5⟩, Option.none, 4⟩).1.1 9 0 (by decide)
  exact h.mpr (by decide)

/-- C2 counterexample: with all three selectors set, the segmentation's
ORIGINAL_IMAGE_INDEX attribute equal to "5" (e.g. from a loaded scene), a
toolbar active browser different from the input browser, and an output
browser whose sequences hold no saved segmentation, onCaptureButton takes
the overwrite branch (nothing is erased) yet appends a brand-new entry to
the segmentation sequence (item count 0 becomes 1): the capture does not
overwrite an existing segmentation as the claim states. -/
theorem SSSeg.onCaptureButton_overwrite_counterexample :
    (SSSeg.onCaptureButton ⟨some ⟨1, 0, 10⟩, some 0,
        some ⟨2, 0, 0, ⟨some [], some []⟩⟩, some ⟨some "5", 7⟩,
        some 99, 4⟩).2.erased = false ∧
    ((⟨some ⟨1, 0, 10⟩, some 0, some ⟨2, 0, 0, ⟨some [], some []⟩⟩,
        some ⟨some "5", 7⟩, some 99, 4⟩ : SSSeg.CaptureState).outputBrowser.map
      (fun b => (b.seqs.segSeq.getD []).length)) = some 0 ∧
    ((SSSeg.onCaptureButton ⟨some ⟨1, 0, 10⟩, some 0,
        some ⟨2, 0, 0, ⟨some [], some []⟩⟩, some ⟨some "5", 7⟩,
        some 99, 4⟩).1.outputBrowser.map
      (fun b => (b.seqs.segSeq.getD []).length)) = some 1 := by
  refine ⟨rfl, rfl, rfl⟩

/-- C2 (amended): in onCaptureButton, when the input browser, segmentation
and output browser are all selected: if the segmentation's
ORIGINAL_IMAGE_INDEX attribute is absent, "None" or empty - or the
toolbar's active browser is the input browser - the capture is treated as
new: the attribute is set to the input browser's current item number before
captureSlice runs, the canvas is erased, the attribute is reset to "None"
and the input browser advances by the skip number (SelectNextItem
semantics); otherwise captureSlice runs on the unchanged segmentation -
overwriting the earliest matching saved entry when one exists and appending
a new one otherwise - and the output browser advances by one item. -/
theorem SSSeg.onCaptureButton_branches (s : SSSeg.CaptureState)
    (ib : SSSeg.InputBrowser) (seg : SSSeg.Segmentation) (ob : SSSeg.OutputBrowser)
    (hin : s.inputBrowser = some ib)
    (hseg : s.segmentation = some seg)
    (hout : s.outputBrowser = some ob) :
    ((s.activeBrowserId = some ib.id ∨ seg.attr = Option.none ∨
        seg.attr = some "None" ∨ seg.attr = some "") →
      (SSSeg.onCaptureButton s).1 =
        { s with
            segmentation := some ⟨some "None", 0⟩,
            outputBrowser := some { ob with seqs := (SSSeg.captureSlice ob.seqs ⟨some (toString ib.selectedItem), seg.payload⟩ s.inputImage).1 },
            inputBrowser := some { ib with selectedItem := SSSeg.selectNextItemSel ib.selectedItem ib.numItems (Int.ofNat s.numSkip) } } ∧
      (SSSeg.onCaptureButton s).2.erased = true ∧
      (SSSeg.onCaptureButton s).2.advance =
        some (ib.selectedItem,
          SSSeg.selectNextItemVal ib.selectedItem ib.numItems (Int.ofNat s.numSkip))) ∧
    ((¬ s.activeBrowserId = some ib.id) ∧ seg.attr ≠ Option.none ∧
        seg.attr ≠ some "None" ∧ seg.attr ≠ some "" →
      (SSSeg.onCaptureButton s).1 =
        { s with outputBrowser := some { ob with seqs := (SSSeg.captureSlice ob.seqs seg s.inputImage).1, selectedItem := SSSeg.selectNextItemSel ob.selectedItem ob.numItems 1 } } ∧
      (SSSeg.onCaptureButton s).2.erased = false ∧
      (SSSeg.onCaptureButton s).2.advance =
        some (ob.selectedItem, SSSeg.selectNextItemVal ob.selectedItem ob.numItems 1) ∧
      (∀ imgIdxVals segItems, s.inputImage ≠ Option.none →
        ob.seqs.imageIndexValues = some imgIdxVals →
        ob.seqs.segSeq = some segItems →
        segItems.map (fun e => e.indexValue) = imgIdxVals →
        (segItems.map (fun e => e.indexValue)).Nodup →
        ((∃ e ∈ segItems, e.attr = seg.attr) →
          ((SSSeg.onCaptureButton s).1.outputBrowser.map
            (fun b => (b.seqs.segSeq.getD []).length)) = some segItems.length) ∧
        ((∀ e ∈ segItems, e.attr ≠ seg.attr) →
          ((SSSeg.onCaptureButton s).1.outputBrowser.map (fun b => b.seqs.segSeq)) =
            some (some (segItems ++
              [⟨toString segItems.length, seg.attr, seg.payload⟩]))))) := by
  constructor
  · intro hA
    have hcond : (if s.activeBrowserId = some ib.id then Option.none else seg.attr) =
        Option.none ∨
        (if s.activeBrowserId = some ib.id then Option.none else seg.attr) = some "None" ∨
        (if s.activeBrowserId = some ib.id then Option.none else seg.attr) = some "" := by
      by_cases hact : s.activeBrowserId = some ib.id
      · left
        simp [hact]
      · rcases hA with h | h | h | h
        · exact absurd h hact
        · left
          simp [hact, h]
        · right
          left
          simp [hact, h]
        · right
          right
          simp [hact, h]
    simp only [SSSeg.onCaptureButton, hin, hseg, hout]
    rw [if_pos hcond]
    exact ⟨rfl, rfl, rfl⟩
  · rintro ⟨hact, h1, h2, h3⟩
    have hcond : ¬ ((if s.activeBrowserId = some ib.id then Option.none else seg.attr) =
        Option.none ∨
        (if s.activeBrowserId = some ib.id then Option.none else seg.attr) = some "None" ∨
        (if s.activeBrowserId = some ib.id then Option.none else seg.attr) = some "") := by
      rw [if_neg hact]
      simp [h1, h2, h3]
    simp only [SSSeg.onCaptureButton, hin, hseg, hout]
    rw [if_neg hcond]
    refine ⟨rfl, rfl, rfl, ?_⟩
    intro imgIdxVals segItems himgne himgv hsegv hsync hnodup
    obtain ⟨img, himg⟩ := Option.ne_none_iff_exists'.mp himgne
    have spec := SSSeg.captureSlice_spec ob.seqs seg img imgIdxVals segItems
      himgv hsegv hsync hnodup
    rw [himg]
    constructor
    · intro hex
      obtain ⟨i, _, _, _, _, hlen⟩ := spec.1 hex
      simp only [Option.map_some']
      exact congrArg some hlen
    · intro hnone
      simp only [Option.map_some']
      exact congrArg some (spec.2 hnone).1

/-- Witness for the amended C2: with the toolbar's active browser equal to
the input browser, capture takes the new-segmentation path: the canvas is
erased and the input browser advances from item 2 by skip 4 to item 6. -/
theorem SSSeg.onCaptureButton_branches_witness :
    (SSSeg.onCaptureButton ⟨some ⟨1, 2, 10⟩, some 0,
        some ⟨2, 0, 0, ⟨some [], some []⟩⟩, some ⟨some "8", 3⟩,
        some 1, 4⟩).2.erased = true ∧
    (SSSeg.onCaptureButton ⟨some ⟨1, 2, 10⟩, some 0,
        some ⟨2, 0, 0, ⟨some [], some []⟩⟩, some ⟨some "8", 3⟩,
        some 1, 4⟩).2.advance = some (2, 6) := by
  have h := (SSSeg.onCaptureButton_branches
    ⟨some ⟨1, 2, 10⟩, some 0, some ⟨2, 0, 0, ⟨some [], some []⟩⟩,
      some ⟨some "8", 3⟩, some 1, 4⟩
    ⟨1, 2, 10⟩ ⟨some "8", 3⟩ ⟨2, 0, 0, ⟨some [], some []⟩⟩
    rfl rfl rfl).1 (Or.inl rfl)
  exact ⟨h.2.1, h.2.2.trans (by decide)⟩

/-- C7 counterexample: onSkipButton with a null output segmentation browser
(input browser and segmentation selected, input browser active in the
toolbar) does not log an error and return; it erases the segmentation
canvas (payload 5 becomes 0) and advances the input browser from item 2 to
item 6, contradicting the claim that a null output segmentation browser
makes the callback return without invoking any logic operation. -/
theorem SSSeg.onSkipButton_null_output_counterexample :
    SSSeg.onSkipButton ⟨some ⟨1, 2, 10⟩, Option.none, Option.none,
        some ⟨some "3", 5⟩, some 1, 4⟩ =
      Except.ok (⟨some ⟨1, 6, 10⟩, Option.none, Option.none,
        some ⟨some "3", 0⟩, some 1, 4⟩, ⟨[], true, some (2, 6), false⟩) := rfl

/-- C7 (amended): onCaptureButton checks the input browser, the segmentation
and the output browser; onSkipButton checks only the input browser and the
segmentation (not the output browser); onConvertButton checks the
segmentation sequence browser, the segmentation and the ultrasound volume.
Whenever one of the nodes a callback does check is null, that callback logs
an error and returns with the state unchanged and no logic operation
invoked; onConvertButton reaches the conversion call exactly when its three
checked nodes are non-null. -/
theorem SSSeg.callback_null_guards (s : SSSeg.CaptureState) (c : SSSeg.ConvertState) :
    (s.inputBrowser = Option.none →
      SSSeg.onCaptureButton s =
        (s, { SSSeg.noEvents with errors := ["No browser node selected!"] })) ∧
    (∀ ib, s.inputBrowser = some ib → s.segmentation = Option.none →
      SSSeg.onCaptureButton s =
        (s, { SSSeg.noEvents with errors := ["No segmentation selected!"] })) ∧
    (∀ ib seg, s.inputBrowser = some ib → s.segmentation = some seg →
      s.outputBrowser = Option.none →
      SSSeg.onCaptureButton s =
        (s, { SSSeg.noEvents with
                errors := ["No segmentation sequence browser selected!"] })) ∧
    (s.inputBrowser = Option.none →
      SSSeg.onSkipButton s =
        Except.ok (s, { SSSeg.noEvents with errors := ["No browser node selected!"] })) ∧
    (∀ ib, s.inputBrowser = some ib → s.segmentation = Option.none →
      SSSeg.onSkipButton s =
        Except.ok (s, { SSSeg.noEvents with errors := ["No segmentation selected!"] })) ∧
    (c.segmentationBrowser = Option.none →
      SSSeg.onConvertButton c = ⟨["No browser node selected!"], Option.none⟩) ∧
    (∀ br, c.segmentationBrowser = some br → c.segmentation = Option.none →
      SSSeg.onConvertButton c = ⟨["No segmentation selected!"], Option.none⟩) ∧
    (∀ br sg, c.segmentationBrowser = some br → c.segmentation = some sg →
      c.ultrasound = Option.none →
      SSSeg.onConvertButton c = ⟨["No ultrasound volume selected!"], Option.none⟩) ∧
    (∀ br sg us, c.segmentationBrowser = some br → c.segmentation = some sg →
      c.ultrasound = some us →
      SSSeg.onConvertButton c = ⟨[], some (br, sg, us, c.convertValue)⟩) := by
  refine ⟨?_, ?_, ?_, ?_, ?_, ?_, ?_, ?_, ?_⟩
  · intro h
    simp [SSSeg.onCaptureButton, h]
  · intro ib h1 h2
    simp [SSSeg.onCaptureButton, h1, h2]
  · intro ib seg h1 h2 h3
    simp [SSSeg.onCaptureButton, h1, h2, h3]
  · intro h
    simp [SSSeg.onSkipButton, h]
  · intro ib h1 h2
    simp [SSSeg.onSkipButton, h1, h2]
  · intro h
    simp [SSSeg.onConvertButton, h]
  · intro br h1 h2
    simp [SSSeg.onConvertButton, h1, h2]
  · intro br sg h1 h2 h3
    simp [SSSeg.onConvertButton, h1, h2, h3]
  · intro br sg us h1 h2 h3
    simp [SSSeg.onConvertButton, h1, h2, h3]

/-- Witness for the amended C7: a null input browser makes onCaptureButton
log the browser error and leave the state unchanged, and a fully selected
onConvertButton reaches the conversion call. -/
theorem SSSeg.callback_null_guards_witness :
    SSSeg.onCaptureButton ⟨Option.none, Option.none, Option.none,
        Option.none, Option.none, 4⟩ =
      (⟨Option.none, Option.none, Option.none, Option.none, Option.none, 4⟩,
        { SSSeg.noEvents with errors := ["No browser node selected!"] }) ∧
    SSSeg.onConvertButton ⟨some 1, some 2, some 3, 7⟩ =
      ⟨[], some (1, 2, 3, 7)⟩ := by
  have h := SSSeg.callback_null_guards
    ⟨Option.none, Option.none, Option.none, Option.none, Option.none, 4⟩
    ⟨some 1, some 2, some 3, 7⟩
  exact ⟨h.1 rfl, h.2.2.2.2.2.2.2.2 1 2 3 rfl rfl rfl⟩

/-- Helper: per-iteration facts of the exportPngSequence loop: an absent
attribute warns and exports at the unchanged image position; a present
attribute never warns, exports at the parsed position when int() succeeds
and is skipped when it fails; an iteration is skipped exactly when its
attribute is present but unparseable; an exported iteration's files carry
the %04d names built from its loop index. -/
theorem SSSeg.pngSteps_spec (baseName : String) (attrs : List (Option String)) :
    ∀ (k i segPos : Nat) (imagePos : Int),
      ∀ st ∈ SSSeg.pngSteps baseName attrs k i segPos imagePos,
        (st.attrSeen = Option.none →
          st.warned = true ∧
          st.outcome = SSSeg.PngOutcome.exported st.imagePosBefore
            (SSSeg.segFileName baseName st.itemIndex)
            (SSSeg.usFileName baseName st.itemIndex)) ∧
        (∀ a, st.attrSeen = some a →
          st.warned = false ∧
          (∀ v, SSSeg.pyInt a = some v →
            st.outcome = SSSeg.PngOutcome.exported v
              (SSSeg.segFileName baseName st.itemIndex)
              (SSSeg.usFileName baseName st.itemIndex)) ∧
          (SSSeg.pyInt a = Option.none →
            st.outcome = SSSeg.PngOutcome.skipped)) ∧
        (st.outcome = SSSeg.PngOutcome.skipped ↔
          ∃ a, st.attrSeen = some a ∧ SSSeg.pyInt a = Option.none) ∧
        (∀ p f g, st.outcome = SSSeg.PngOutcome.exported p f g →
          f = SSSeg.segFileName baseName st.itemIndex ∧
          g = SSSeg.usFileName baseName st.itemIndex) := by
  intro k
  induction k with
  | zero =>
    intro i segPos imagePos st hst
    simp [SSSeg.pngSteps] at hst
  | succ k ih =>
    intro i segPos imagePos st hst
    rw [SSSeg.pngSteps] at hst
    rcases hattr : attrs.getD segPos Option.none with _ | a
    · simp only [hattr] at hst
      rcases List.mem_cons.mp hst with rfl | hmem
      · refine ⟨fun _ => ⟨rfl, rfl⟩, fun a2 ha2 => by simp at ha2, ?_, ?_⟩
        · constructor
          · intro ho
            cases ho
          · rintro ⟨a2, ha2, -⟩
            simp at ha2
        · intro p f g ho
          simp only [SSSeg.PngOutcome.exported.injEq] at ho
          exact ⟨ho.2.1.symm, ho.2.2.symm⟩
      · exact ih _ _ _ st hmem
    · simp only [hattr] at hst
      rcases hint : SSSeg.pyInt a with _ | v
      · simp only [hint] at hst
        rcases List.mem_cons.mp hst with rfl | hmem
        · refine ⟨fun hn => by simp at hn, fun a2 ha2 => ?_, ?_, ?_⟩
          · simp only [Option.some.injEq] at ha2
            subst ha2
            refine ⟨rfl, fun v hv => ?_, fun _ => rfl⟩
            rw [hint] at hv
            cases hv
          · constructor
            · intro _
              exact ⟨a, rfl, hint⟩
            · intro _
              rfl
          · intro p f g ho
            cases ho
        · exact ih _ _ _ st hmem
      · simp only [hint] at hst
        rcases List.mem_cons.mp hst with rfl | hmem
        · refine ⟨fun hn => by simp at hn, fun a2 ha2 => ?_, ?_, ?_⟩
          · simp only [Option.some.injEq] at ha2
            subst ha2
            refine ⟨rfl, fun v2 hv2 => ?_, fun hn => ?_⟩
            · rw [hint] at hv2
              simp only [Option.some.injEq] at hv2
              subst hv2
              rfl
            · rw [hint] at hn
              cases hn
          · constructor
            · intro ho
              cases ho
            · rintro ⟨a2, ha2, hn⟩
              simp only [Option.some.injEq] at ha2
              subst ha2
              rw [hint] at hn
              cases hn
          · intro p f g ho
            simp only [SSSeg.PngOutcome.exported.injEq] at ho
            exact ⟨ho.2.1.symm, ho.2.2.symm⟩
        · exact ih _ _ _ st hmem

/-- Helper: the loop iterates once per item, recording the loop indices
i, i+1, ..., i+k-1 in order. -/
theorem SSSeg.pngSteps_map_itemIndex (baseName : String) (attrs : List (Option String)) :
    ∀ (k i segPos : Nat) (imagePos : Int),
      (SSSeg.pngSteps baseName attrs k i segPos imagePos).map
        (fun st => st.itemIndex) = List.range' i k 1 := by
  intro k
  induction k with
  | zero =>
    intro i segPos imagePos
    simp [SSSeg.pngSteps]
  | succ k ih =>
    intro i segPos imagePos
    rw [SSSeg.pngSteps, List.range'_succ]
    rcases hattr : attrs.getD segPos Option.none with _ | a
    · simp only [hattr, List.map_cons, List.cons.injEq, true_and]
      exact ih _ _ _
    · rcases hint : SSSeg.pyInt a with _ | v <;>
        simp only [hattr, hint, List.map_cons, List.cons.injEq, true_and] <;>
        exact ih _ _ _

/-- C4: during exportPngSequence, before each exported image/label pair the
image sequence browser is repositioned to the frame index stored in the
current segmentation's ORIGINAL_IMAGE_INDEX attribute (the export happens at
the parsed position); when the attribute is absent a warning is logged and
the pair is exported with the input sequence position unchanged; when the
attribute cannot be used to select a frame (int() fails) that item is
skipped. -/
theorem SSSeg.exportPng_repositions_to_original_index
    (folderExists : Bool) (baseName : String) (attrs : List (Option String))
    (ip0 : Int) :
    ∀ st ∈ (SSSeg.exportPngSequence folderExists baseName attrs ip0).steps,
      (st.attrSeen = Option.none →
        st.warned = true ∧
        st.outcome = SSSeg.PngOutcome.exported st.imagePosBefore
          (SSSeg.segFileName baseName st.itemIndex)
          (SSSeg.usFileName baseName st.itemIndex)) ∧
      (∀ a, st.attrSeen = some a →
        st.warned = false ∧
        (∀ v, SSSeg.pyInt a = some v →
          st.outcome = SSSeg.PngOutcome.exported v
            (SSSeg.segFileName baseName st.itemIndex)
            (SSSeg.usFileName baseName st.itemIndex)) ∧
        (SSSeg.pyInt a = Option.none → st.outcome = SSSeg.PngOutcome.skipped)) := by
  intro st hst
  cases folderExists
  · simp [SSSeg.exportPngSequence] at hst
  · simp only [SSSeg.exportPngSequence, Bool.true_eq_false, if_false] at hst
    have h := SSSeg.pngSteps_spec baseName attrs attrs.length 0 0 ip0 st hst
    exact ⟨h.1, h.2.1⟩

/-- Witness for C4: with one saved segmentation whose attribute is "2", the
only export step repositions the image browser to frame 2. -/
theorem SSSeg.exportPng_repositions_to_original_index_witness :
    (⟨0, some "2", 0, false, SSSeg.PngOutcome.exported 2 (SSSeg.segFileName "b" 0)
        (SSSeg.usFileName "b" 0)⟩ : SSSeg.PngStep).outcome =
      SSSeg.PngOutcome.exported 2 (SSSeg.segFileName "b" 0) (SSSeg.usFileName "b" 0) := by
  have h := SSSeg.exportPng_repositions_to_original_index true "b" [some "2"] 0
    ⟨0, some "2", 0, false, SSSeg.PngOutcome.exported 2 (SSSeg.segFileName "b" 0)
      (SSSeg.usFileName "b" 0)⟩ (by decide)
  exact (h.2 "2" rfl).2.1 2 (by decide)

/-- C5 counterexample: the segmentation sequence holds one item (so the
claim demands two PNG files for item 0) whose attribute is the string
"None"; the export loop skips it and writes no files at all, with no error
logged. -/
theorem SSSeg.exportPng_two_files_counterexample :
    0 < ([some "None"] : List (Option String)).length ∧
    (SSSeg.exportPngSequence true "base" [some "None"] 0).filesWritten = [] ∧
    (SSSeg.exportPngSequence true "base" [some "None"] 0).errors = [] := by
  exact ⟨by decide, rfl, rfl⟩

/-- C5 (amended): if the output folder does not exist, exportPngSequence
logs an error and writes no files; otherwise the loop visits the item
indices 0, ..., n-1 in order and, for every iteration that is not skipped
(an iteration is skipped exactly when the attribute it sees is present but
not parseable as an integer), writes exactly the two PNG files named
baseName_%04d_segmentation.png and baseName_%04d_ultrasound.png for its
loop index, a skipped iteration writing none. -/
theorem SSSeg.exportPng_files_per_item (baseName : String)
    (attrs : List (Option String)) (ip0 : Int) :
    ((SSSeg.exportPngSequence false baseName attrs ip0).steps = [] ∧
      (SSSeg.exportPngSequence false baseName attrs ip0).filesWritten = [] ∧
      (SSSeg.exportPngSequence false baseName attrs ip0).errors ≠ []) ∧
    (((SSSeg.exportPngSequence true baseName attrs ip0).steps.map
        (fun st => st.itemIndex)) = List.range attrs.length ∧
      (SSSeg.exportPngSequence true baseName attrs ip0).errors = [] ∧
      ∀ st ∈ (SSSeg.exportPngSequence true baseName attrs ip0).steps,
        (st.outcome = SSSeg.PngOutcome.skipped → st.files = []) ∧
        (st.outcome ≠ SSSeg.PngOutcome.skipped →
          st.files = [SSSeg.segFileName baseName st.itemIndex,
                      SSSeg.usFileName baseName st.itemIndex]) ∧
        (st.outcome = SSSeg.PngOutcome.skipped ↔
          ∃ a, st.attrSeen = some a ∧ SSSeg.pyInt a = Option.none)) := by
  refine ⟨⟨rfl, rfl, by simp [SSSeg.exportPngSequence]⟩, ?_, rfl, ?_⟩
  · simp only [SSSeg.exportPngSequence, Bool.true_eq_false, if_false]
    rw [SSSeg.pngSteps_map_itemIndex, List.range_eq_range']
  · intro st hst
    simp only [SSSeg.exportPngSequence, Bool.true_eq_false, if_false] at hst
    have h := SSSeg.pngSteps_spec baseName attrs attrs.length 0 0 ip0 st hst
    refine ⟨?_, ?_, h.2.2.1⟩
    · intro ho
      simp [SSSeg.PngStep.files, ho]
    · intro ho
      rcases houtc : st.outcome with p | f | g
      · obtain ⟨hf, hg⟩ := h.2.2.2 _ _ _ houtc
        subst hf
        subst hg
        simp [SSSeg.PngStep.files, houtc]
      · exact absurd houtc ho

/-- Witness for the amended C5: with a single absent attribute the loop
visits exactly item 0, and a missing folder writes nothing. -/
theorem SSSeg.exportPng_files_per_item_witness :
    ((SSSeg.exportPngSequence true "u" [Option.none] 0).steps.map
      (fun st => st.itemIndex)) = [0] ∧
    (SSSeg.exportPngSequence false "u" [Option.none] 0).filesWritten = [] := by
  have h := SSSeg.exportPng_files_per_item "u" [Option.none] 0
  exact ⟨h.2.1.trans (by decide), h.1.2.1⟩

/-- C6: onExportButton never checks the image sequence browser - its fourth
guard tests selectedImage a second time although its message names the image
sequence browser.  With the segmentation, segmentation browser and image
selected but the image sequence browser null (and the transform checkbox
off), the callback logs nothing and invokes the PNG export passing None as
the image sequence browser, instead of logging "No image sequence browser
selected!" and returning as intended. -/
theorem SSSeg.onExportButton_null_imageBrowser_proceeds :
    SSSeg.onExportButton ⟨some 1, some 2, some 3, Option.none, false, "f", "b"⟩ =
      ⟨[], some (3, Option.none, 2, 1, "f", "b"), Option.none, Option.none⟩ := rfl
